import Mathlib

/-!
Shallow embedding of the channel-based relay of figjam-code-review-v2.

Server side (src/socket.ts): channel registry, message dispatcher, domain
handlers, chunking transport and the broadcast primitive.
Client side (src/cursor_mcp_plugin/ui/utils/websocket.ts): the chunked-payload
reassembler.

Modelling conventions:
* Connections are identified by natural numbers (`ConnId`); a connection's
  readyState and whether an attempted transport write succeeds are supplied as
  environments (`rs : ConnId → Nat`, `sok : ConnId → Bool`).
* A JS `Map` is an association list with unique keys (`alGet`/`alSet`/
  `alRemove`); a JS `Set` is a duplicate-free list in insertion order
  (`setAdd`, `List.erase`), matching the iteration order JS guarantees.
* The serialized form of a `uml:payload` payload (the result of
  `JSON.stringify(message.payload)`) is modelled directly as its sequence of
  code units, a `List Char`; short protocol strings stay `String`.
* Fallible pieces of the environment (`JSON.parse` on the client,
  `new Date().toISOString()`, `Date.now()`, `Math.random()`) are passed in as
  parameters (`parse`, `ServerEnv`).
* Direct `ws.send` calls outside `broadcastToChannel` are not individually
  wrapped in try/catch in the source; they are modelled as succeeding
  (outcome `true`), matching the fire-and-forget transport.  The per-recipient
  try/catch inside `broadcastToChannel` is modelled by recording the attempt
  with its outcome and always continuing the iteration.
-/

namespace Relay

abbrev ConnId := Nat

/-- The numeric value of `WebSocket.OPEN`. -/
def WS_OPEN : Nat := 1

/-- Lookup in a JS `Map` modelled as an association list. -/
def alGet {α : Type} : List (String × α) → String → Option α
  | [], _ => none
  | e :: rest, k => if e.1 = k then some e.2 else alGet rest k

/-- `Map.set`: replace the entry if the key exists, else append. -/
def alSet {α : Type} : List (String × α) → String → α → List (String × α)
  | [], k, v => [(k, v)]
  | e :: rest, k, v => if e.1 = k then (k, v) :: rest else e :: alSet rest k v

/-- `Map.delete`: drop the entry with the given key. -/
def alRemove {α : Type} : List (String × α) → String → List (String × α)
  | [], _ => []
  | e :: rest, k => if e.1 = k then alRemove rest k else e :: alRemove rest k

/-- JS `Set.add`: no-op when the element is present, else appended at the end
(insertion order is preserved by JS sets). -/
def setAdd (l : List ConnId) (x : ConnId) : List ConnId :=
  if x ∈ l then l else l ++ [x]

/-- The `message` field of an outbound envelope: either a plain string or the
object `{id, result}` sent as the second join acknowledgement. -/
inductive MsgField where
  | str (s : String)
  | idResult (oid : Option String) (result : String)
deriving Repr, DecidableEq

/-- Payload of a `comments:upsert` message (socket.ts:45-54). -/
structure CommentPayload where
  id : Option String := none
  file : String := ""
  line : Int := 0
  text : String := ""
  createdAt : Option String := none
deriving Repr, DecidableEq, Inhabited

/-- An outbound wire envelope.  Each JSON object literal the server builds sets
a subset of these fields; absent fields are `none`. -/
structure Envelope where
  type : String
  channel : Option String := none
  id : Option String := none
  message : Option MsgField := none
  sender : Option String := none
  payloadText : Option (List Char) := none
  payloadPass : Option String := none
  comment : Option CommentPayload := none
  totalChunks : Option Nat := none
  chunkSize : Option Nat := none
  totalSize : Option Nat := none
  chunkIndex : Option Nat := none
  chunk : Option (List Char) := none
deriving Repr, DecidableEq

/-- An inbound frame after `JSON.parse`.  `payloadText` stands for the
serialized text of a `uml:payload` payload; `payloadPass` for the opaque
payloads the relay passes through unchanged; `comment` for a
`comments:upsert` payload. -/
structure InFrame where
  type : String
  channel : Option String := none
  id : Option String := none
  message : Option String := none
  payloadText : Option (List Char) := none
  payloadPass : Option String := none
  comment : Option CommentPayload := none
deriving Repr, DecidableEq

/-- Values the server draws from its environment while handling one frame:
`Date.now()`, the `Math.random()` suffix used for generated comment ids, and
`new Date().toISOString()`. -/
structure ServerEnv where
  nowMs : Nat
  randSuffix : String
  nowISO : String
deriving Repr, DecidableEq

/-- Observable actions of the server while handling one event.  `send c e ok`
records that `c.send(JSON.stringify e)` was invoked and whether the write
succeeded; `closeConn` would record the server closing a connection (the
message path never does). -/
inductive OutAction where
  | send (dst : ConnId) (env : Envelope) (delivered : Bool)
  | closeConn (c : ConnId)
deriving Repr, DecidableEq

/-- The channel registry: channel name → member set (socket.ts:4). -/
abbrev Channels := List (String × List ConnId)

/-- The envelopes sent (attempted) to connection `c`, in order. -/
def sentEnvs (acts : List OutAction) (c : ConnId) : List Envelope :=
  acts.filterMap fun a =>
    match a with
    | OutAction.send t e _ => if t = c then some e else none
    | _ => none

/-- How many times envelope `e` was sent to `c`. -/
def sendCount (acts : List OutAction) (c : ConnId) (e : Envelope) : Nat :=
  (sentEnvs acts c).count e

/-- An error reply envelope: `{type: "error", message: msg}`. -/
def errEnv (msg : String) : Envelope :=
  { type := "error", message := some (MsgField.str msg) }

/-- The check `!channelName || typeof channelName !== "string"`: a missing
channel field and the empty string are both rejected (JS falsiness). -/
def truthyStr : Option String → Option String
  | none => none
  | some s => if s = "" then none else some s

/-- `isMember chs ch ws` iff channel `ch` exists and `ws` is in its set. -/
def isMember (chs : Channels) (ch : String) (ws : ConnId) : Bool :=
  match alGet chs ch with
  | none => false
  | some s => decide (ws ∈ s)

/-- `broadcastToChannel` (socket.ts:412-425): iterate the member set, skip
members whose socket is not open, send to the rest; a throwing send is caught
and logged, so the iteration always continues past a failure. -/
def broadcastToChannel (rs : ConnId → Nat) (sok : ConnId → Bool)
    (clients : List ConnId) (env : Envelope) : List OutAction :=
  clients.filterMap fun c =>
    if rs c = WS_OPEN then some (OutAction.send c env (sok c)) else none

/-- Decision threshold for chunking: `1024 * 1024` (socket.ts:331). -/
def maxPayloadSize : Nat := 1024 * 1024

/-- Chunk unit: `512 * 1024` (socket.ts:431). -/
def chunkUnit : Nat := 512 * 1024

/-- `str.slice(s, e)` for `0 ≤ s ≤ e` on the modelled code-unit sequence. -/
def jsSlice (l : List Char) (s e : Nat) : List Char := (l.drop s).take (e - s)

/-- The envelope sequence `broadcastLargePayload` (socket.ts:427-472) emits to
the channel, in order: one start frame, `totalChunks` chunk frames, one
complete frame.  `totalChunks = Math.ceil(length / chunkSize)`; chunk `i`
carries `payloadStr.slice(i*chunkSize, min(i*chunkSize + chunkSize, length))`. -/
def largePayloadFrames (channel oid : Option String) (payloadStr : List Char) :
    List Envelope :=
  let totalChunks := (payloadStr.length + chunkUnit - 1) / chunkUnit
  { type := "uml:payload:chunked:start", totalChunks := some totalChunks,
    chunkSize := some chunkUnit, totalSize := some payloadStr.length,
    channel := channel, id := oid }
  :: ((List.range totalChunks).map fun i =>
      ({ type := "uml:payload:chunk", chunkIndex := some i,
         totalChunks := some totalChunks,
         chunk := some (jsSlice payloadStr (i * chunkUnit)
           (min (i * chunkUnit + chunkUnit) payloadStr.length)),
         channel := channel, id := oid } : Envelope))
  ++ [{ type := "uml:payload:chunked:complete", channel := channel, id := oid }]

/-- `broadcastLargePayload`: each frame of the sequence is broadcast to the
channel via `broadcastToChannel` (the inter-chunk delay is timing only). -/
def broadcastLargePayload (rs : ConnId → Nat) (sok : ConnId → Bool)
    (clients : List ConnId) (channel oid : Option String)
    (payloadStr : List Char) : List OutAction :=
  ((largePayloadFrames channel oid payloadStr).map
    (broadcastToChannel rs sok clients)).flatten

/-- `handleUmlPayload` (socket.ts:323-343): measure the serialized payload;
chunk if it exceeds the threshold, else broadcast one `uml:payload` envelope. -/
def handleUmlPayload (rs : ConnId → Nat) (sok : ConnId → Bool)
    (clients : List ConnId) (channel oid : Option String)
    (payloadStr : List Char) : List OutAction :=
  if payloadStr.length > maxPayloadSize then
    broadcastLargePayload rs sok clients channel oid payloadStr
  else
    broadcastToChannel rs sok clients
      { type := "uml:payload", payloadText := some payloadStr,
        channel := channel, id := oid }

/-- JS falsiness of an optional string field: absent or equal to `""`. -/
def jsFalsy (o : Option String) : Bool :=
  match o with
  | none => true
  | some s => s == ""

/-- The generated comment id
`` `comment_${Date.now()}_${Math.random().toString(36).substr(2, 9)}` ``
(socket.ts:386). -/
def genCommentId (env : ServerEnv) : String :=
  "comment_" ++ toString env.nowMs ++ "_" ++ env.randSuffix

/-- The payload mutation of `handleCommentUpsert` (socket.ts:379-387): fill
`createdAt` when falsy, then fill `id` when falsy. -/
def normalizeComment (env : ServerEnv) (p : CommentPayload) : CommentPayload :=
  let p1 := if jsFalsy p.createdAt then { p with createdAt := some env.nowISO } else p
  if jsFalsy p1.id then { p1 with id := some (genCommentId env) } else p1

/-- The switch over the six domain message types (socket.ts:267-295); the
default case only logs.  Each handler performs exactly one broadcast. -/
def runDomainHandler (env : ServerEnv) (rs : ConnId → Nat) (sok : ConnId → Bool)
    (members : List ConnId) (f : InFrame) : List OutAction :=
  if f.type = "uml:generate" then
    broadcastToChannel rs sok members
      { type := "uml:generate:started",
        message := some (MsgField.str "UML generation started"),
        payloadPass := f.payloadPass, channel := f.channel, id := f.id }
  else if f.type = "uml:payload" then
    handleUmlPayload rs sok members f.channel f.id (f.payloadText.getD [])
  else if f.type = "code:open" then
    broadcastToChannel rs sok members
      { type := "code:open", payloadPass := f.payloadPass,
        channel := f.channel, id := f.id }
  else if f.type = "code:highlight" then
    broadcastToChannel rs sok members
      { type := "code:highlight", payloadPass := f.payloadPass,
        channel := f.channel, id := f.id }
  else if f.type = "comments:upsert" then
    broadcastToChannel rs sok members
      { type := "comments:upsert",
        comment := some (normalizeComment env (f.comment.getD default)),
        channel := f.channel, id := f.id }
  else if f.type = "comments:export" then
    broadcastToChannel rs sok members
      { type := "comments:export", payloadPass := f.payloadPass,
        channel := f.channel, id := f.id }
  else []

/-- The try/catch around the domain-handler switch (socket.ts:266-303): a
handler that returns normally contributes its actions; an exception is caught
at this boundary and reported to the whole channel as one `error` envelope
containing the stringified exception and the offending type.  Encoded over
`Except`, the embedding of fallible code; the function returning normally on
`.error` is the catch. -/
def dispatchWithCatch (rs : ConnId → Nat) (sok : ConnId → Bool)
    (members : List ConnId) (channelName dataType : String)
    (outcome : Except String (List OutAction)) : List OutAction :=
  match outcome with
  | Except.ok acts => acts
  | Except.error e =>
    broadcastToChannel rs sok members
      { type := "error",
        message := some (MsgField.str ("Failed to handle " ++ dataType ++ ": " ++ e)),
        channel := some channelName }

/-- `handleSpecialMessage` (socket.ts:247-304): validate the channel name,
enforce membership, then dispatch.  The modelled handlers are total, so the
dispatch is entered with `Except.ok`. -/
def handleSpecialMessage (env : ServerEnv) (rs : ConnId → Nat)
    (sok : ConnId → Bool) (chs : Channels) (ws : ConnId) (f : InFrame) :
    Channels × List OutAction :=
  match truthyStr f.channel with
  | none => (chs, [OutAction.send ws (errEnv "Channel name is required") true])
  | some channelName =>
    match alGet chs channelName with
    | none => (chs, [OutAction.send ws (errEnv "You must join the channel first") true])
    | some members =>
      if ws ∈ members then
        (chs, dispatchWithCatch rs sok members channelName f.type
          (Except.ok (runDomainHandler env rs sok members f)))
      else (chs, [OutAction.send ws (errEnv "You must join the channel first") true])

/-- The "user joined" notification sent to other channel members. -/
def joinNotifyEnv (ch : String) : Envelope :=
  { type := "system",
    message := some (MsgField.str "A new user has joined the channel"),
    channel := some ch }

/-- The `data.type === "join"` branch (socket.ts:146-194): create the channel
if absent, add the sender, acknowledge twice to the sender, notify every other
open member once. -/
def joinBranch (rs : ConnId → Nat) (chs : Channels) (ws : ConnId) (f : InFrame) :
    Channels × List OutAction :=
  match truthyStr f.channel with
  | none => (chs, [OutAction.send ws (errEnv "Channel name is required") true])
  | some channelName =>
    let chs1 := match alGet chs channelName with
      | none => alSet chs channelName []
      | some _ => chs
    let members := setAdd ((alGet chs1 channelName).getD []) ws
    let chs2 := alSet chs1 channelName members
    (chs2,
      OutAction.send ws
        { type := "system",
          message := some (MsgField.str ("Joined channel: " ++ channelName)),
          channel := some channelName } true
      :: OutAction.send ws
        { type := "system",
          message := some (MsgField.idResult f.id ("Connected to channel: " ++ channelName)),
          channel := some channelName } true
      :: members.filterMap fun c =>
          if c ≠ ws ∧ rs c = WS_OPEN then
            some (OutAction.send c (joinNotifyEnv channelName) true)
          else none)

/-- The `data.type === "message"` branch (socket.ts:197-229): membership gate,
then a per-recipient personalized `broadcast` envelope. -/
def messageBranch (rs : ConnId → Nat) (chs : Channels) (ws : ConnId) (f : InFrame) :
    Channels × List OutAction :=
  match truthyStr f.channel with
  | none => (chs, [OutAction.send ws (errEnv "Channel name is required") true])
  | some channelName =>
    match alGet chs channelName with
    | none => (chs, [OutAction.send ws (errEnv "You must join the channel first") true])
    | some members =>
      if ws ∈ members then
        (chs, members.filterMap fun c =>
          if rs c = WS_OPEN then
            some (OutAction.send c
              { type := "broadcast", message := f.message.map MsgField.str,
                sender := some (if c = ws then "You" else "User"),
                channel := some channelName } true)
          else none)
      else (chs, [OutAction.send ws (errEnv "You must join the channel first") true])

/-- One inbound frame through the dispatcher (socket.ts:141-235): join branch,
message branch, else `handleSpecialMessage`. -/
def processFrame (env : ServerEnv) (rs : ConnId → Nat) (sok : ConnId → Bool)
    (chs : Channels) (ws : ConnId) (f : InFrame) : Channels × List OutAction :=
  if f.type = "join" then joinBranch rs chs ws f
  else if f.type = "message" then messageBranch rs chs ws f
  else handleSpecialMessage env rs sok chs ws f

/-- The close handler registered with the server (socket.ts:237-242): on
disconnect the connection is deleted from every channel's member set and
nothing is sent.  (The notifying cleanup closure of socket.ts:82-102 is
assigned to `ws.close`, overwriting the socket's `close()` method rather than
registering a disconnect callback, so it does not run on disconnect; see
`wsCloseAssigned`.) -/
def closeHandler (chs : Channels) (ws : ConnId) : Channels × List OutAction :=
  (chs.map (fun e => (e.1, e.2.erase ws)), [])

/-- The cleanup closure assigned to `ws.close` in `handleConnection`
(socket.ts:82-102): remove the connection from every channel that contains it
and notify each remaining open member of that channel.  Because the assignment
replaces the socket's `close()` method instead of registering a handler, and
the relay never calls `ws.close()`, this code is dead on the disconnect path. -/
def wsCloseAssigned (rs : ConnId → Nat) (chs : Channels) (ws : ConnId) :
    Channels × List OutAction :=
  (chs.map (fun e => (e.1, e.2.erase ws)),
   (chs.map (fun e =>
     if ws ∈ e.2 then
       (e.2.erase ws).filterMap (fun c =>
         if rs c = WS_OPEN then
           some (OutAction.send c
             { type := "system",
               message := some (MsgField.str "A user has left the channel"),
               channel := some e.1 } true)
         else none)
     else [])).flatten)

/-- Client side: the session key `message.id || 'default'`
(websocket.ts:138,148,160). -/
def msgKey (oid : Option String) : String :=
  match oid with
  | none => "default"
  | some s => if s = "" then "default" else s

/-- Client side: one in-flight chunk session (websocket.ts:19). -/
structure ChunkSession where
  chunks : List (List Char)
  received : Nat
  total : Nat
deriving Repr, DecidableEq

/-- The client's session map, keyed by message id. -/
abbrev SessionMap := List (String × ChunkSession)

/-- `handleChunkedStart` (websocket.ts:137-145): allocate `totalChunks` empty
slots under the session key. -/
def handleChunkedStart (sessions : SessionMap) (oid : Option String)
    (totalChunks : Nat) : SessionMap :=
  alSet sessions (msgKey oid)
    { chunks := List.replicate totalChunks [], received := 0, total := totalChunks }

/-- `handleChunk` (websocket.ts:147-157): when a session exists for the key and
the frame has a payload, store the chunk at its index and bump the counter;
otherwise do nothing. -/
def handleChunk (sessions : SessionMap) (oid : Option String)
    (payload : Option (Nat × List Char)) : SessionMap :=
  match alGet sessions (msgKey oid), payload with
  | some cm, some pr =>
    alSet sessions (msgKey oid)
      { cm with chunks := cm.chunks.set pr.1 pr.2, received := cm.received + 1 }
  | _, _ => sessions

/-- `handleChunkedComplete` (websocket.ts:159-175): when a session exists, join
the slots, try to parse (`JSON.parse` modelled by the `parse` parameter; a
parse failure is caught, yielding no delivery), and delete the session in
either case.  When no session exists, do nothing.  Returns the new session map
and the delivered payload, if any. -/
def handleChunkedComplete {α : Type} (parse : List Char → Option α)
    (sessions : SessionMap) (oid : Option String) : SessionMap × Option α :=
  match alGet sessions (msgKey oid) with
  | none => (sessions, none)
  | some cm => (alRemove sessions (msgKey oid), parse cm.chunks.flatten)

/-- The chunk-protocol emission exactly as the spec describes it (§4.4, §8.4):
one start envelope with `totalChunks = ceil(L / 524288)`, chunkSize `524288`
and totalSize `L`; then for `i = 0..totalChunks-1` a chunk envelope whose
chunk field is the slice of the serialized text from `i*524288` to
`min((i+1)*524288, L)`; then one complete envelope — each echoing the channel
and the correlation id.  Stated from the spec's words, to be compared with
`largePayloadFrames`, which is translated from the source. -/
def specChunkFrames (channel oid : Option String) (p : List Char) : List Envelope :=
  ({ type := "uml:payload:chunked:start",
     totalChunks := some ((p.length + 524288 - 1) / 524288),
     chunkSize := some 524288, totalSize := some p.length,
     channel := channel, id := oid } : Envelope)
  :: ((List.range ((p.length + 524288 - 1) / 524288)).map fun i =>
      ({ type := "uml:payload:chunk", chunkIndex := some i,
         totalChunks := some ((p.length + 524288 - 1) / 524288),
         chunk := some (jsSlice p (i * 524288) (min ((i + 1) * 524288) p.length)),
         channel := channel, id := oid } : Envelope))
  ++ [{ type := "uml:payload:chunked:complete", channel := channel, id := oid }]

/-! ### Concrete fixtures used by witnesses and counterexamples -/

/-- A session map with one active session under key "k". -/
def sess1 : SessionMap := [("k", { chunks := [['a']], received := 1, total := 1 })]

def env0 : ServerEnv := { nowMs := 0, randSuffix := "r", nowISO := "t" }

def rsAllOpen : ConnId → Nat := fun _ => WS_OPEN

def sokAllOk : ConnId → Bool := fun _ => true

/-- A serialized payload text one code unit over the 1 MiB threshold. -/
def bigPayload : List Char := List.replicate 1048577 'a'

/-- A comment payload whose `id` is present but the empty string. -/
def commentEmptyId : CommentPayload :=
  { id := some "", file := "f.ts", line := 3, text := "hello",
    createdAt := some "2020-01-01T00:00:00Z" }

/-! ### Helper lemmas -/

theorem sentEnvs_nil (c : ConnId) : sentEnvs [] c = [] := rfl

theorem sentEnvs_cons (a : OutAction) (acts : List OutAction) (c : ConnId) :
    sentEnvs (a :: acts) c =
      (match a with
       | OutAction.send t e _ => if t = c then [e] else []
       | _ => []) ++ sentEnvs acts c := by
  cases a with
  | send t e d =>
    by_cases h : t = c <;> simp [sentEnvs, List.filterMap_cons, h]
  | closeConn c' => simp [sentEnvs, List.filterMap_cons]

theorem sentEnvs_append (l1 l2 : List OutAction) (c : ConnId) :
    sentEnvs (l1 ++ l2) c = sentEnvs l1 c ++ sentEnvs l2 c := by
  simp [sentEnvs, List.filterMap_append]

theorem sentEnvs_cons_send (t : ConnId) (e : Envelope) (b : Bool)
    (acts : List OutAction) (c : ConnId) :
    sentEnvs (OutAction.send t e b :: acts) c =
      (if t = c then [e] else []) ++ sentEnvs acts c := by
  by_cases h : t = c <;> simp [sentEnvs, List.filterMap_cons, h]

/-- Sends produced by a guarded per-member `filterMap`, as seen by one
recipient: one envelope per occurrence of the recipient when the guard holds
for it, nothing otherwise. -/
theorem sentEnvs_guardSend (p : ConnId → Prop) [DecidablePred p]
    (envOf : ConnId → Envelope) (okOf : ConnId → Bool)
    (clients : List ConnId) (c : ConnId) :
    sentEnvs (clients.filterMap fun m =>
      if p m then some (OutAction.send m (envOf m) (okOf m)) else none) c =
    if p c then List.replicate (clients.count c) (envOf c) else [] := by
  induction clients with
  | nil => by_cases h : p c <;> simp [sentEnvs, h]
  | cons d rest ih =>
    rw [List.filterMap_cons]
    by_cases hd : p d
    · rw [if_pos hd, sentEnvs_cons]
      by_cases hdc : d = c
      · subst hdc
        rw [ih]
        rw [if_pos hd, if_pos hd]
        simp [List.count_cons, List.replicate_succ]
      · rw [ih]
        simp only [if_neg hdc, List.nil_append]
        rw [List.count_cons]
        simp [hdc]
    · rw [if_neg hd, ih]
      by_cases hpc : p c
      · have hdc : d ≠ c := fun h => hd (h ▸ hpc)
        rw [if_pos hpc, if_pos hpc, List.count_cons]
        simp [hdc]
      · rw [if_neg hpc, if_neg hpc]

/-- Every action produced by a guarded per-member `filterMap` is a send to a
member satisfying the guard. -/
theorem mem_guardSend (p : ConnId → Prop) [DecidablePred p]
    (envOf : ConnId → Envelope) (okOf : ConnId → Bool)
    (clients : List ConnId) (a : OutAction)
    (ha : a ∈ clients.filterMap fun m =>
      if p m then some (OutAction.send m (envOf m) (okOf m)) else none) :
    ∃ c, c ∈ clients ∧ p c ∧ a = OutAction.send c (envOf c) (okOf c) := by
  rw [List.mem_filterMap] at ha
  obtain ⟨m, hm, hfm⟩ := ha
  by_cases hp : p m
  · rw [if_pos hp] at hfm
    exact ⟨m, hm, hp, (Option.some_inj.mp hfm).symm⟩
  · rw [if_neg hp] at hfm
    exact absurd hfm (Option.noConfusion)

theorem alGet_alSet_self {α : Type} (l : List (String × α)) (k : String) (v : α) :
    alGet (alSet l k v) k = some v := by
  induction l with
  | nil => simp [alGet, alSet]
  | cons e rest ih =>
    by_cases h : e.1 = k
    · simp [alSet, alGet, h]
    · simp [alSet, alGet, h, ih]

theorem alGet_alRemove_self {α : Type} (l : List (String × α)) (k : String) :
    alGet (alRemove l k) k = none := by
  induction l with
  | nil => simp [alGet, alRemove]
  | cons e rest ih =>
    by_cases h : e.1 = k
    · simp [alRemove, h, ih]
    · simp [alRemove, alGet, h, ih]

theorem truthyStr_some (ch : String) (hne : ch ≠ "") (o : Option String)
    (ho : o = some ch) : truthyStr o = some ch := by
  subst ho
  simp [truthyStr, hne]

theorem genCommentId_ne_empty (env : ServerEnv) : genCommentId env ≠ "" := by
  intro h
  have hl := congrArg String.length h
  rw [genCommentId] at hl
  rw [String.length_append, String.length_append, String.length_append] at hl
  have h8 : ("comment_" : String).length = 8 := rfl
  have h0 : ("" : String).length = 0 := rfl
  rw [h8, h0] at hl
  omega

/-- The slice the chunk loop takes at offset `s` is just "take `cs` after
dropping `s`": the `min` with the total length is absorbed by the list end. -/
theorem jsSlice_min_eq (l : List Char) (s cs : Nat) :
    jsSlice l s (min (s + cs) l.length) = (l.drop s).take cs := by
  unfold jsSlice
  by_cases h : s ≤ l.length
  · have h1 : min (s + cs) l.length - s = min cs (l.length - s) := by omega
    rw [h1]
    have h2 : (l.drop s).length = l.length - s := List.length_drop s l
    by_cases hcs : cs ≤ l.length - s
    · rw [min_eq_left hcs]
    · have h3 : min cs (l.length - s) = l.length - s := by omega
      rw [h3, ← h2, List.take_length, List.take_of_length_le (by omega)]
  · have hd : l.drop s = [] := List.drop_eq_nil_of_le (by omega)
    rw [hd]
    simp

/-- Concatenating `Math.ceil(length / cs)` successive `cs`-sized slices of a
list reproduces the list. -/
theorem chunks_flatten (cs : Nat) (hcs : 0 < cs) :
    ∀ (n : Nat) (l : List Char), n = (l.length + cs - 1) / cs →
      ((List.range n).map fun i => (l.drop (i * cs)).take cs).flatten = l := by
  intro n
  induction n with
  | zero =>
    intro l hl
    have hlen : l.length = 0 := by
      by_contra h
      have h1 : l.length + cs - 1 = (l.length - 1) + cs := by omega
      rw [h1, Nat.add_div_right _ hcs] at hl
      exact Nat.succ_ne_zero _ hl.symm
    rw [List.eq_nil_of_length_eq_zero hlen]
    simp
  | succ n ih =>
    intro l hl
    have hL : 1 ≤ l.length := by
      by_contra h
      have h0 : l.length = 0 := by omega
      rw [h0] at hl
      rw [Nat.div_eq_of_lt (by omega)] at hl
      omega
    have hn' : n = ((l.drop cs).length + cs - 1) / cs := by
      have heq : l.length + cs - 1 = (l.length - 1) + cs := by omega
      rw [heq, Nat.add_div_right _ hcs] at hl
      have hn : n = (l.length - 1) / cs := Nat.succ_injective hl
      rw [List.length_drop]
      by_cases h : cs ≤ l.length
      · have h2 : l.length - cs + cs - 1 = l.length - 1 := by omega
        rw [h2, hn]
      · have h1 : l.length - cs = 0 := by omega
        rw [h1, Nat.div_eq_of_lt (by omega), hn, Nat.div_eq_of_lt (by omega)]
    rw [List.range_succ_eq_map, List.map_cons, List.map_map, List.flatten_cons]
    have hzero : (l.drop (0 * cs)).take cs = l.take cs := by simp
    rw [hzero]
    have hstep : ((fun i => (l.drop (i * cs)).take cs) ∘ Nat.succ) =
        fun i => ((l.drop cs).drop (i * cs)).take cs := by
      funext i
      simp only [Function.comp_apply]
      rw [List.drop_drop, Nat.succ_mul, Nat.add_comm]
    rw [hstep, ih (l.drop cs) hn', List.take_append_drop]

/-- The chunk slices emitted by `broadcastLargePayload`, concatenated in index
order, reproduce the serialized payload text. -/
theorem largeChunks_flatten (p : List Char) :
    ((List.range ((p.length + 524288 - 1) / 524288)).map fun i =>
      jsSlice p (i * 524288) (min ((i + 1) * 524288) p.length)).flatten = p := by
  have hcongr : ((List.range ((p.length + 524288 - 1) / 524288)).map fun i =>
      jsSlice p (i * 524288) (min ((i + 1) * 524288) p.length)) =
      ((List.range ((p.length + 524288 - 1) / 524288)).map fun i =>
      (p.drop (i * 524288)).take 524288) := by
    apply List.map_congr_left
    intro i _
    rw [Nat.succ_mul]
    exact jsSlice_min_eq p (i * 524288) 524288
  rw [hcongr]
  exact chunks_flatten 524288 (by norm_num) _ p rfl

theorem processFrame_join (env : ServerEnv) (rs : ConnId → Nat) (sok : ConnId → Bool)
    (chs : Channels) (ws : ConnId) (f : InFrame) (h : f.type = "join") :
    processFrame env rs sok chs ws f = joinBranch rs chs ws f := by
  unfold processFrame
  rw [if_pos h]

theorem processFrame_message (env : ServerEnv) (rs : ConnId → Nat) (sok : ConnId → Bool)
    (chs : Channels) (ws : ConnId) (f : InFrame) (h : f.type = "message") :
    processFrame env rs sok chs ws f = messageBranch rs chs ws f := by
  unfold processFrame
  rw [if_neg (by rw [h]; decide), if_pos h]

theorem processFrame_other (env : ServerEnv) (rs : ConnId → Nat) (sok : ConnId → Bool)
    (chs : Channels) (ws : ConnId) (f : InFrame)
    (hj : f.type ≠ "join") (hm : f.type ≠ "message") :
    processFrame env rs sok chs ws f = handleSpecialMessage env rs sok chs ws f := by
  unfold processFrame
  rw [if_neg hj, if_neg hm]

theorem handleSpecial_gate (env : ServerEnv) (rs : ConnId → Nat) (sok : ConnId → Bool)
    (chs : Channels) (ws : ConnId) (f : InFrame) (ch : String)
    (hch : truthyStr f.channel = some ch)
    (hmem : isMember chs ch ws = false) :
    handleSpecialMessage env rs sok chs ws f =
      (chs, [OutAction.send ws (errEnv "You must join the channel first") true]) := by
  unfold handleSpecialMessage
  rw [hch]
  unfold isMember at hmem
  cases hg : alGet chs ch with
  | none => simp [hg]
  | some s =>
    rw [hg] at hmem
    have hws : ws ∉ s := by simpa using hmem
    simp [hg, hws]

theorem messageBranch_gate (rs : ConnId → Nat) (chs : Channels) (ws : ConnId)
    (f : InFrame) (ch : String)
    (hch : truthyStr f.channel = some ch)
    (hmem : isMember chs ch ws = false) :
    messageBranch rs chs ws f =
      (chs, [OutAction.send ws (errEnv "You must join the channel first") true]) := by
  unfold messageBranch
  rw [hch]
  unfold isMember at hmem
  cases hg : alGet chs ch with
  | none => simp [hg]
  | some s =>
    rw [hg] at hmem
    have hws : ws ∉ s := by simpa using hmem
    simp [hg, hws]

theorem handleSpecial_member (env : ServerEnv) (rs : ConnId → Nat) (sok : ConnId → Bool)
    (chs : Channels) (ws : ConnId) (f : InFrame) (ch : String) (members : List ConnId)
    (hch : truthyStr f.channel = some ch)
    (hget : alGet chs ch = some members) (hmem : ws ∈ members) :
    handleSpecialMessage env rs sok chs ws f =
      (chs, runDomainHandler env rs sok members f) := by
  unfold handleSpecialMessage
  rw [hch]
  simp [hget, hmem, dispatchWithCatch]

theorem sentEnvs_bcast (rs : ConnId → Nat) (sok : ConnId → Bool)
    (clients : List ConnId) (e : Envelope) (c : ConnId) :
    sentEnvs (broadcastToChannel rs sok clients e) c =
      if rs c = WS_OPEN then List.replicate (clients.count c) e else [] :=
  sentEnvs_guardSend (fun m => rs m = WS_OPEN) (fun _ => e) sok clients c

theorem mem_bcast (rs : ConnId → Nat) (sok : ConnId → Bool)
    (clients : List ConnId) (e : Envelope) (a : OutAction)
    (ha : a ∈ broadcastToChannel rs sok clients e) :
    ∃ c, c ∈ clients ∧ rs c = WS_OPEN ∧ a = OutAction.send c e (sok c) :=
  mem_guardSend (fun m => rs m = WS_OPEN) (fun _ => e) sok clients a ha

/-! ### Claim theorems -/

/-- Claim C2: the spec (and the cleanup closure of socket.ts:82-102) says every
remaining member of every channel the closing connection belonged to receives
exactly one "user left" notification.  The close handler actually registered
with the server (socket.ts:237-242) only deletes the connection from every
channel's member set and sends nothing: at the failing input — channel "ch"
with members 0 and 1, connection 0 closing — member 1 is notified zero times.
The notifying code was assigned to `ws.close`, overwriting the socket's
`close()` method instead of registering a disconnect callback, so it never
runs on disconnect. -/
theorem claim2_close_removes_but_never_notifies :
    closeHandler [("ch", [0, 1])] 0 = ([("ch", [1])], []) ∧
    sentEnvs (closeHandler [("ch", [0, 1])] 0).2 1 = [] := by
  exact ⟨rfl, rfl⟩

/-- Claim C3: a channel-scoped frame other than join ("message" or any of the
six domain types) naming a valid channel the sender has not joined yields
exactly one error reply "You must join the channel first" to the sender only,
no broadcast to anyone, and leaves the channel registry unchanged. -/
theorem claim3_membership_gate (env : ServerEnv) (rs : ConnId → Nat)
    (sok : ConnId → Bool) (chs : Channels) (ws : ConnId) (f : InFrame) (ch : String)
    (hty : f.type = "message" ∨ f.type = "uml:generate" ∨ f.type = "uml:payload" ∨
      f.type = "code:open" ∨ f.type = "code:highlight" ∨
      f.type = "comments:upsert" ∨ f.type = "comments:export")
    (hch : f.channel = some ch) (hne : ch ≠ "")
    (hmem : isMember chs ch ws = false) :
    processFrame env rs sok chs ws f =
      (chs, [OutAction.send ws (errEnv "You must join the channel first") true]) := by
  have htr : truthyStr f.channel = some ch := truthyStr_some ch hne f.channel hch
  rcases hty with h|h|h|h|h|h|h
  · rw [processFrame_message env rs sok chs ws f h]
    exact messageBranch_gate rs chs ws f ch htr hmem
  all_goals {
    rw [processFrame_other env rs sok chs ws f (by rw [h]; decide) (by rw [h]; decide)]
    exact handleSpecial_gate env rs sok chs ws f ch htr hmem
  }

/-- Witness for C3 at a concrete input: sender 2 is not a member of "ch". -/
theorem claim3_witness :
    (({ type := "message", channel := some "ch" } : InFrame).type = "message" ∨
      ({ type := "message", channel := some "ch" } : InFrame).type = "uml:generate" ∨
      ({ type := "message", channel := some "ch" } : InFrame).type = "uml:payload" ∨
      ({ type := "message", channel := some "ch" } : InFrame).type = "code:open" ∨
      ({ type := "message", channel := some "ch" } : InFrame).type = "code:highlight" ∨
      ({ type := "message", channel := some "ch" } : InFrame).type = "comments:upsert" ∨
      ({ type := "message", channel := some "ch" } : InFrame).type = "comments:export") ∧
    processFrame env0 rsAllOpen sokAllOk [("ch", [0, 1])] 2
      { type := "message", channel := some "ch" } =
      ([("ch", [0, 1])], [OutAction.send 2 (errEnv "You must join the channel first") true]) :=
  ⟨Or.inl rfl,
   claim3_membership_gate env0 rsAllOpen sokAllOk [("ch", [0, 1])] 2
     { type := "message", channel := some "ch" } "ch" (Or.inl rfl) rfl
     (by decide) (by decide)⟩

/-- Claim C4's counterexample: a frame of unknown type "bogus" with no channel
field is not silently ignored — the relay replies to the sender with the
"Channel name is required" error, because unknown types still pass through the
channel/membership validation of handleSpecialMessage before reaching the
ignoring default case. -/
theorem claim4_counterexample :
    (processFrame env0 rsAllOpen sokAllOk [] 0 { type := "bogus" }).2 =
      [OutAction.send 0 (errEnv "Channel name is required") true] ∧
    (processFrame env0 rsAllOpen sokAllOk [] 0 { type := "bogus" }).2 ≠ [] := by
  exact ⟨rfl, by decide⟩

/-- Claim C4 as amended: for a frame whose type is not join, not message and
none of the six domain types, the channel-presence and membership checks still
run first (failing ones produce the corresponding error reply to the sender);
when the sender is a member of the named channel the frame is logged and
ignored — no reply, no state change. -/
theorem claim4_amended (env : ServerEnv) (rs : ConnId → Nat) (sok : ConnId → Bool)
    (chs : Channels) (ws : ConnId) (f : InFrame) (ch : String) (members : List ConnId)
    (hj : f.type ≠ "join") (hm : f.type ≠ "message")
    (h1 : f.type ≠ "uml:generate") (h2 : f.type ≠ "uml:payload")
    (h3 : f.type ≠ "code:open") (h4 : f.type ≠ "code:highlight")
    (h5 : f.type ≠ "comments:upsert") (h6 : f.type ≠ "comments:export")
    (hch : f.channel = some ch) (hne : ch ≠ "")
    (hget : alGet chs ch = some members) (hmem : ws ∈ members) :
    processFrame env rs sok chs ws f = (chs, []) := by
  have htr : truthyStr f.channel = some ch := truthyStr_some ch hne f.channel hch
  rw [processFrame_other env rs sok chs ws f hj hm]
  rw [handleSpecial_member env rs sok chs ws f ch members htr hget hmem]
  unfold runDomainHandler
  rw [if_neg h1, if_neg h2, if_neg h3, if_neg h4, if_neg h5, if_neg h6]

/-- Witness for the amended C4: the unknown type "bogus" from a member of
"ch" produces no reply and no state change. -/
theorem claim4_witness :
    processFrame env0 rsAllOpen sokAllOk [("ch", [0, 1])] 0
      { type := "bogus", channel := some "ch" } = ([("ch", [0, 1])], []) :=
  claim4_amended env0 rsAllOpen sokAllOk [("ch", [0, 1])] 0
    { type := "bogus", channel := some "ch" } "ch" [0, 1]
    (by decide) (by decide) (by decide) (by decide) (by decide) (by decide)
    (by decide) (by decide) rfl (by decide) rfl (by decide)

/-- Claim C5: a uml:payload message from a channel member whose serialized
payload length is at most 1048576 (including exactly equal) is broadcast as
exactly one uml:payload envelope carrying the payload, the channel and the
correlation id — one send per open member — and every emitted action is a send
of that single envelope, so zero chunk-protocol frames are emitted. -/
theorem claim5_small_payload (env : ServerEnv) (rs : ConnId → Nat) (sok : ConnId → Bool)
    (chs : Channels) (ws : ConnId) (f : InFrame) (ch : String) (members : List ConnId)
    (p : List Char)
    (hty : f.type = "uml:payload") (hch : f.channel = some ch) (hne : ch ≠ "")
    (hget : alGet chs ch = some members) (hmem : ws ∈ members) (hnd : members.Nodup)
    (hp : f.payloadText = some p) (hL : p.length ≤ 1048576) :
    processFrame env rs sok chs ws f =
      (chs, broadcastToChannel rs sok members
        { type := "uml:payload", payloadText := some p, channel := some ch, id := f.id }) ∧
    (∀ c ∈ members, rs c = WS_OPEN →
      sentEnvs (processFrame env rs sok chs ws f).2 c =
        [{ type := "uml:payload", payloadText := some p, channel := some ch, id := f.id }]) ∧
    (∀ a ∈ (processFrame env rs sok chs ws f).2, ∃ c b,
      a = OutAction.send c
        { type := "uml:payload", payloadText := some p, channel := some ch, id := f.id } b) := by
  have htr : truthyStr f.channel = some ch := truthyStr_some ch hne f.channel hch
  have heq : processFrame env rs sok chs ws f =
      (chs, broadcastToChannel rs sok members
        { type := "uml:payload", payloadText := some p, channel := some ch, id := f.id }) := by
    rw [processFrame_other env rs sok chs ws f (by rw [hty]; decide) (by rw [hty]; decide)]
    rw [handleSpecial_member env rs sok chs ws f ch members htr hget hmem]
    unfold runDomainHandler
    rw [if_neg (by rw [hty]; decide), if_pos hty]
    unfold handleUmlPayload
    rw [hp, hch]
    simp only [Option.getD_some]
    rw [if_neg (by unfold maxPayloadSize; omega)]
  refine ⟨heq, ?_, ?_⟩
  · intro c hc ho
    rw [heq]
    show sentEnvs (broadcastToChannel rs sok members _) c = _
    rw [sentEnvs_bcast, if_pos ho, List.count_eq_one_of_mem hnd hc]
    rfl
  · intro a ha
    rw [heq] at ha
    obtain ⟨c, _, _, hae⟩ := mem_bcast rs sok members _ a ha
    exact ⟨c, sok c, hae⟩

/-- Witness for C5: a one-character payload from member 0 of "ch". -/
theorem claim5_witness :
    (['a'] : List Char).length ≤ 1048576 ∧
    processFrame env0 rsAllOpen sokAllOk [("ch", [0, 1])] 0
      { type := "uml:payload", channel := some "ch", id := some "m",
        payloadText := some ['a'] } =
      ([("ch", [0, 1])], broadcastToChannel rsAllOpen sokAllOk [0, 1]
        { type := "uml:payload", payloadText := some ['a'], channel := some "ch",
          id := some "m" }) :=
  ⟨by decide,
   (claim5_small_payload env0 rsAllOpen sokAllOk [("ch", [0, 1])] 0
     { type := "uml:payload", channel := some "ch", id := some "m",
       payloadText := some ['a'] } "ch" [0, 1] ['a']
     rfl rfl (by decide) rfl (by decide) (by decide) rfl (by decide)).1⟩

/-- Claim C6: an exception thrown inside a domain handler is caught at the
dispatch boundary and reported as exactly one error envelope — carrying the
stringified exception with the offending message type, and naming the channel
— broadcast to every open member of the channel, not only the sender; the
dispatch returns normally (nothing escapes to crash the process) and no
connection is closed. -/
theorem claim6_handler_exception (rs : ConnId → Nat) (sok : ConnId → Bool)
    (members : List ConnId) (chName dtype e : String) (hnd : members.Nodup) :
    dispatchWithCatch rs sok members chName dtype (Except.error e) =
      broadcastToChannel rs sok members
        { type := "error",
          message := some (MsgField.str ("Failed to handle " ++ dtype ++ ": " ++ e)),
          channel := some chName } ∧
    (∀ c ∈ members, rs c = WS_OPEN →
      sentEnvs (dispatchWithCatch rs sok members chName dtype (Except.error e)) c =
        [{ type := "error",
           message := some (MsgField.str ("Failed to handle " ++ dtype ++ ": " ++ e)),
           channel := some chName }]) ∧
    (∀ a ∈ dispatchWithCatch rs sok members chName dtype (Except.error e),
      ∀ c, a ≠ OutAction.closeConn c) := by
  refine ⟨rfl, ?_, ?_⟩
  · intro c hc ho
    simp only [dispatchWithCatch]
    rw [sentEnvs_bcast, if_pos ho, List.count_eq_one_of_mem hnd hc]
    rfl
  · intro a ha c
    simp only [dispatchWithCatch] at ha
    obtain ⟨d, _, _, hae⟩ := mem_bcast rs sok members _ a ha
    rw [hae]
    exact fun h => OutAction.noConfusion h

/-- Witness for C6: a forced error in channel "ch" with members 0 and 1 is
reported once to member 1 as the error broadcast. -/
theorem claim6_witness :
    ([0, 1] : List ConnId).Nodup ∧
    sentEnvs (dispatchWithCatch rsAllOpen sokAllOk [0, 1] "ch" "uml:generate"
      (Except.error "boom")) 1 =
      [{ type := "error",
         message := some (MsgField.str ("Failed to handle " ++ "uml:generate" ++ ": " ++ "boom")),
         channel := some "ch" }] :=
  ⟨by decide,
   (claim6_handler_exception rsAllOpen sokAllOk [0, 1] "ch" "uml:generate" "boom"
     (by decide)).2.1 1 (by decide) rfl⟩

/-- Claim C8: the broadcast primitive sends the envelope exactly once to each
open member of the given set, skips non-open members (and, being a pure
fan-out, performs no membership mutation), sends nothing to connections
outside the set, emits only sends of the given envelope to open members, and
the set of attempted sends does not depend on which individual writes fail
(a per-recipient failure is caught and the iteration continues). -/
theorem claim8_broadcast_primitive (rs : ConnId → Nat) (sok : ConnId → Bool)
    (clients : List ConnId) (e : Envelope) (hnd : clients.Nodup) :
    (∀ c ∈ clients, rs c = WS_OPEN →
      sentEnvs (broadcastToChannel rs sok clients e) c = [e]) ∧
    (∀ c, rs c ≠ WS_OPEN → sentEnvs (broadcastToChannel rs sok clients e) c = []) ∧
    (∀ c, c ∉ clients → sentEnvs (broadcastToChannel rs sok clients e) c = []) ∧
    (∀ a ∈ broadcastToChannel rs sok clients e, ∃ c, c ∈ clients ∧ rs c = WS_OPEN ∧
      a = OutAction.send c e (sok c)) ∧
    (∀ sok2 c, sentEnvs (broadcastToChannel rs sok2 clients e) c =
      sentEnvs (broadcastToChannel rs sok clients e) c) := by
  refine ⟨?_, ?_, ?_, mem_bcast rs sok clients e, ?_⟩
  · intro c hc ho
    rw [sentEnvs_bcast, if_pos ho, List.count_eq_one_of_mem hnd hc]
    rfl
  · intro c ho
    rw [sentEnvs_bcast, if_neg ho]
  · intro c hc
    rw [sentEnvs_bcast, List.count_eq_zero_of_not_mem hc]
    split <;> rfl
  · intro sok2 c
    rw [sentEnvs_bcast, sentEnvs_bcast]

/-- Witness for C8: members 0, 1, 2 where 2 is not open and the write to 1
fails; member 0 still receives the envelope exactly once. -/
theorem claim8_witness :
    ([0, 1, 2] : List ConnId).Nodup ∧
    sentEnvs (broadcastToChannel (fun c => if c = 2 then 3 else WS_OPEN)
      (fun c => !(c == 1)) [0, 1, 2] (errEnv "x")) 0 = [errEnv "x"] :=
  ⟨by decide,
   (claim8_broadcast_primitive (fun c => if c = 2 then 3 else WS_OPEN)
     (fun c => !(c == 1)) [0, 1, 2] (errEnv "x") (by decide)).1 0 (by decide) rfl⟩

/-- Claim C1: an over-threshold uml:payload message from a channel member is
emitted to the channel as the three-phase chunk sequence — and that sequence
is exactly the one the spec describes (start with totalChunks/chunkSize/
totalSize, the indexed contiguous slices, complete, all echoing channel and
correlation id) — and the concatenation of the chunk slices in index order
reproduces the serialized text exactly. -/
theorem claim1_chunked_protocol (env : ServerEnv) (rs : ConnId → Nat) (sok : ConnId → Bool)
    (chs : Channels) (ws : ConnId) (f : InFrame) (ch : String) (members : List ConnId)
    (p : List Char)
    (hty : f.type = "uml:payload") (hch : f.channel = some ch) (hne : ch ≠ "")
    (hget : alGet chs ch = some members) (hmem : ws ∈ members)
    (hp : f.payloadText = some p) (hL : 1048576 < p.length) :
    processFrame env rs sok chs ws f =
      (chs, ((largePayloadFrames (some ch) f.id p).map
        (broadcastToChannel rs sok members)).flatten) ∧
    largePayloadFrames (some ch) f.id p = specChunkFrames (some ch) f.id p ∧
    ((List.range ((p.length + 524288 - 1) / 524288)).map fun i =>
      jsSlice p (i * 524288) (min ((i + 1) * 524288) p.length)).flatten = p := by
  have htr : truthyStr f.channel = some ch := truthyStr_some ch hne f.channel hch
  refine ⟨?_, ?_, largeChunks_flatten p⟩
  · rw [processFrame_other env rs sok chs ws f (by rw [hty]; decide) (by rw [hty]; decide)]
    rw [handleSpecial_member env rs sok chs ws f ch members htr hget hmem]
    unfold runDomainHandler
    rw [if_neg (by rw [hty]; decide), if_pos hty]
    unfold handleUmlPayload
    rw [hp, hch]
    simp only [Option.getD_some]
    rw [if_pos (by unfold maxPayloadSize; omega)]
    rfl
  · simp only [largePayloadFrames, specChunkFrames]
    have hcu : chunkUnit = 524288 := rfl
    rw [hcu]
    have hmap : ((List.range ((p.length + 524288 - 1) / 524288)).map fun i =>
        ({ type := "uml:payload:chunk", chunkIndex := some i,
           totalChunks := some ((p.length + 524288 - 1) / 524288),
           chunk := some (jsSlice p (i * 524288) (min (i * 524288 + 524288) p.length)),
           channel := some ch, id := f.id } : Envelope)) =
        ((List.range ((p.length + 524288 - 1) / 524288)).map fun i =>
        ({ type := "uml:payload:chunk", chunkIndex := some i,
           totalChunks := some ((p.length + 524288 - 1) / 524288),
           chunk := some (jsSlice p (i * 524288) (min ((i + 1) * 524288) p.length)),
           channel := some ch, id := f.id } : Envelope)) := by
      apply List.map_congr_left
      intro i _
      rw [Nat.succ_mul]
    rw [hmap]

/-- Witness for C1: a payload of 1048577 code units, one over the threshold. -/
theorem claim1_witness :
    1048576 < bigPayload.length ∧
    largePayloadFrames (some "ch") (some "m") bigPayload =
      specChunkFrames (some "ch") (some "m") bigPayload :=
  ⟨by show 1048576 < (List.replicate 1048577 'a').length;
      rw [List.length_replicate]; norm_num,
   (claim1_chunked_protocol env0 rsAllOpen sokAllOk [("ch", [0])] 0
     { type := "uml:payload", channel := some "ch", id := some "m",
       payloadText := some bigPayload } "ch" [0] bigPayload
     rfl rfl (by decide) rfl (by decide) rfl
     (by show 1048576 < (List.replicate 1048577 'a').length;
         rw [List.length_replicate]; norm_num)).2.1⟩

/-- Claim C7's counterexample: a comments:upsert payload whose `id` is present
but the empty string is not preserved — the source tests `!payload.id`, and in
JS the empty string is falsy, so the present id is replaced by the generated
one.  This contradicts the claim that present client-supplied fields
(including id) are preserved unchanged. -/
theorem claim7_counterexample :
    commentEmptyId.id = some "" ∧
    (normalizeComment env0 commentEmptyId).id = some "comment_0_r" ∧
    (normalizeComment env0 commentEmptyId).id ≠ commentEmptyId.id := by
  refine ⟨rfl, by decide, by decide⟩

/-- Claim C7 as amended: the broadcast envelope has type comments:upsert and
echoes the original channel and correlation id; the payload equals the
original except that an absent OR EMPTY createdAt is filled with the server
timestamp and an absent OR EMPTY id is filled with the server-generated id
(JS truthiness: the source tests `!payload.createdAt` / `!payload.id`);
present non-empty fields are preserved unchanged; after normalization the id
is non-empty, and createdAt is non-empty provided the server timestamp is. -/
theorem claim7_comment_normalization (env : ServerEnv) (rs : ConnId → Nat)
    (sok : ConnId → Bool) (chs : Channels) (ws : ConnId) (f : InFrame) (ch : String)
    (members : List ConnId) (pc : CommentPayload)
    (hty : f.type = "comments:upsert") (hch : f.channel = some ch) (hne : ch ≠ "")
    (hget : alGet chs ch = some members) (hmem : ws ∈ members)
    (hc : f.comment = some pc) (hiso : env.nowISO ≠ "") :
    processFrame env rs sok chs ws f =
      (chs, broadcastToChannel rs sok members
        { type := "comments:upsert", comment := some (normalizeComment env pc),
          channel := some ch, id := f.id }) ∧
    (normalizeComment env pc).file = pc.file ∧
    (normalizeComment env pc).line = pc.line ∧
    (normalizeComment env pc).text = pc.text ∧
    (jsFalsy pc.createdAt = false → (normalizeComment env pc).createdAt = pc.createdAt) ∧
    (jsFalsy pc.createdAt = true → (normalizeComment env pc).createdAt = some env.nowISO) ∧
    (jsFalsy pc.id = false → (normalizeComment env pc).id = pc.id) ∧
    (jsFalsy pc.id = true → (normalizeComment env pc).id = some (genCommentId env)) ∧
    jsFalsy (normalizeComment env pc).id = false ∧
    jsFalsy (normalizeComment env pc).createdAt = false := by
  have htr : truthyStr f.channel = some ch := truthyStr_some ch hne f.channel hch
  have heq : processFrame env rs sok chs ws f =
      (chs, broadcastToChannel rs sok members
        { type := "comments:upsert", comment := some (normalizeComment env pc),
          channel := some ch, id := f.id }) := by
    rw [processFrame_other env rs sok chs ws f (by rw [hty]; decide) (by rw [hty]; decide)]
    rw [handleSpecial_member env rs sok chs ws f ch members htr hget hmem]
    unfold runDomainHandler
    rw [if_neg (by rw [hty]; decide), if_neg (by rw [hty]; decide),
      if_neg (by rw [hty]; decide), if_neg (by rw [hty]; decide), if_pos hty]
    rw [hc, hch]
    rfl
  have hgen : jsFalsy (some (genCommentId env)) = false := by
    simp [jsFalsy]
    exact genCommentId_ne_empty env
  have hisoF : jsFalsy (some env.nowISO) = false := by
    simp [jsFalsy]
    exact hiso
  refine ⟨heq, ?_, ?_, ?_, ?_, ?_, ?_, ?_, ?_, ?_⟩ <;>
    unfold normalizeComment <;>
    cases hcd : jsFalsy pc.createdAt <;> cases hid : jsFalsy pc.id <;>
    simp_all [jsFalsy]

/-- Witness for C7 (amended): a payload with absent id and createdAt gets both
filled and non-falsy. -/
theorem claim7_witness :
    env0.nowISO ≠ "" ∧
    jsFalsy (normalizeComment env0 { file := "f", line := 1, text := "t" }).id = false ∧
    jsFalsy (normalizeComment env0 { file := "f", line := 1, text := "t" }).createdAt = false :=
  ⟨by decide,
   (claim7_comment_normalization env0 rsAllOpen sokAllOk [("ch", [0])] 0
     { type := "comments:upsert", channel := some "ch", id := some "m",
       comment := some { file := "f", line := 1, text := "t" } } "ch" [0]
     { file := "f", line := 1, text := "t" }
     rfl rfl (by decide) rfl (by decide) rfl (by decide)).2.2.2.2.2.2.2.2.1,
   (claim7_comment_normalization env0 rsAllOpen sokAllOk [("ch", [0])] 0
     { type := "comments:upsert", channel := some "ch", id := some "m",
       comment := some { file := "f", line := 1, text := "t" } } "ch" [0]
     { file := "f", line := 1, text := "t" }
     rfl rfl (by decide) rfl (by decide) rfl (by decide)).2.2.2.2.2.2.2.2.2⟩

theorem joinedMsg_ne_notifyMsg (ch : String) :
    ("Joined channel: " ++ ch) ≠ "A new user has joined the channel" := by
  intro h
  have hd := congrArg String.data h
  rw [String.data_append] at hd
  have h1 : ("Joined channel: " : String).data = 'J' :: ("oined channel: " : String).data := rfl
  have h2 : ("A new user has joined the channel" : String).data =
      'A' :: (" new user has joined the channel" : String).data := rfl
  rw [h1, h2, List.cons_append] at hd
  have hji := (List.cons.injEq _ _ _ _).mp hd
  exact absurd hji.1 (by decide)

theorem ack1_ne_notify (ch : String) :
    ({ type := "system",
       message := some (MsgField.str ("Joined channel: " ++ ch)),
       channel := some ch } : Envelope) ≠ joinNotifyEnv ch := by
  intro h
  have hm := congrArg Envelope.message h
  simp [joinNotifyEnv] at hm
  exact joinedMsg_ne_notifyMsg ch hm

theorem ack2_ne_notify (ch : String) (oid : Option String) :
    ({ type := "system",
       message := some (MsgField.idResult oid ("Connected to channel: " ++ ch)),
       channel := some ch } : Envelope) ≠ joinNotifyEnv ch := by
  intro h
  have hm := congrArg Envelope.message h
  simp [joinNotifyEnv] at hm

/-- Claim C9: a join for a channel the connection already belongs to leaves
that channel's member set unchanged (same list of members); each join attempt
produces exactly one "user joined" notification to each other open member and
none to a non-open member; and the joining connection never receives the
"user joined" notification about itself. -/
theorem claim9_join_idempotent (env : ServerEnv) (rs : ConnId → Nat) (sok : ConnId → Bool)
    (chs : Channels) (ws : ConnId) (f : InFrame) (ch : String) (s : List ConnId)
    (hty : f.type = "join") (hch : f.channel = some ch) (hne : ch ≠ "")
    (hget : alGet chs ch = some s) (hmem : ws ∈ s) (hnd : s.Nodup) :
    alGet (processFrame env rs sok chs ws f).1 ch = some s ∧
    (∀ c ∈ s, c ≠ ws → rs c = WS_OPEN →
      sendCount (processFrame env rs sok chs ws f).2 c (joinNotifyEnv ch) = 1) ∧
    (∀ c, c ≠ ws → rs c ≠ WS_OPEN →
      sendCount (processFrame env rs sok chs ws f).2 c (joinNotifyEnv ch) = 0) ∧
    sendCount (processFrame env rs sok chs ws f).2 ws (joinNotifyEnv ch) = 0 := by
  have htr : truthyStr f.channel = some ch := truthyStr_some ch hne f.channel hch
  have hadd : setAdd s ws = s := by unfold setAdd; rw [if_pos hmem]
  have heq : processFrame env rs sok chs ws f =
      (alSet chs ch s,
        OutAction.send ws
          { type := "system",
            message := some (MsgField.str ("Joined channel: " ++ ch)),
            channel := some ch } true
        :: OutAction.send ws
          { type := "system",
            message := some (MsgField.idResult f.id ("Connected to channel: " ++ ch)),
            channel := some ch } true
        :: s.filterMap fun c =>
            if c ≠ ws ∧ rs c = WS_OPEN then
              some (OutAction.send c (joinNotifyEnv ch) true)
            else none) := by
    rw [processFrame_join env rs sok chs ws f hty]
    unfold joinBranch
    rw [htr]
    simp only [hget, Option.getD_some, hadd]
  rw [heq]
  refine ⟨alGet_alSet_self chs ch s, ?_, ?_, ?_⟩
  · intro c hc hcw ho
    unfold sendCount
    rw [sentEnvs_cons_send, sentEnvs_cons_send]
    rw [if_neg (fun h => hcw (h.symm)), if_neg (fun h => hcw (h.symm))]
    simp only [List.nil_append]
    rw [sentEnvs_guardSend (fun m => m ≠ ws ∧ rs m = WS_OPEN)
      (fun _ => joinNotifyEnv ch) (fun _ => true) s c]
    rw [if_pos ⟨hcw, ho⟩, List.count_eq_one_of_mem hnd hc]
    simp
  · intro c hcw ho
    unfold sendCount
    rw [sentEnvs_cons_send, sentEnvs_cons_send]
    rw [if_neg (fun h => hcw (h.symm)), if_neg (fun h => hcw (h.symm))]
    simp only [List.nil_append]
    rw [sentEnvs_guardSend (fun m => m ≠ ws ∧ rs m = WS_OPEN)
      (fun _ => joinNotifyEnv ch) (fun _ => true) s c]
    rw [if_neg (fun hp => ho hp.2)]
    rfl
  · unfold sendCount
    rw [sentEnvs_cons_send, sentEnvs_cons_send]
    rw [if_pos rfl, if_pos rfl]
    rw [sentEnvs_guardSend (fun m => m ≠ ws ∧ rs m = WS_OPEN)
      (fun _ => joinNotifyEnv ch) (fun _ => true) s ws]
    rw [if_neg (fun hp => hp.1 rfl)]
    rw [List.count_eq_zero]
    intro hmem'
    simp at hmem'
    rcases hmem' with h | h
    · exact ack1_ne_notify ch h.symm
    · exact ack2_ne_notify ch f.id h.symm

/-- Witness for C9: connection 0 joins "ch" again while already a member
alongside open member 1: the member set is unchanged and member 1 is notified
exactly once. -/
theorem claim9_witness :
    (0 : ConnId) ∈ [0, 1] ∧
    alGet (processFrame env0 rsAllOpen sokAllOk [("ch", [0, 1])] 0
      { type := "join", channel := some "ch", id := some "m" }).1 "ch" = some [0, 1] ∧
    sendCount (processFrame env0 rsAllOpen sokAllOk [("ch", [0, 1])] 0
      { type := "join", channel := some "ch", id := some "m" }).2 1
      (joinNotifyEnv "ch") = 1 :=
  ⟨by decide,
   (claim9_join_idempotent env0 rsAllOpen sokAllOk [("ch", [0, 1])] 0
     { type := "join", channel := some "ch", id := some "m" } "ch" [0, 1]
     rfl rfl (by decide) rfl (by decide) (by decide)).1,
   (claim9_join_idempotent env0 rsAllOpen sokAllOk [("ch", [0, 1])] 0
     { type := "join", channel := some "ch", id := some "m" } "ch" [0, 1]
     rfl rfl (by decide) rfl (by decide) (by decide)).2.1 1 (by decide) (by decide) rfl⟩

/-- Claim C10: in the client reassembler, a chunk or complete frame whose
session key (the message id, or "default" when the id is absent) has no active
session is silently ignored — the session map is unchanged and no payload is
delivered; and a complete frame that does find an active session always
deletes it from the map, whether or not parsing the concatenated chunk text
succeeds (the parse result is arbitrary here). -/
theorem claim10_reassembler {α : Type} (parse : List Char → Option α)
    (sessions : SessionMap) (oid : Option String) (payload : Option (Nat × List Char)) :
    (alGet sessions (msgKey oid) = none →
      handleChunk sessions oid payload = sessions ∧
      handleChunkedComplete parse sessions oid = (sessions, none)) ∧
    (∀ cm, alGet sessions (msgKey oid) = some cm →
      alGet (handleChunkedComplete parse sessions oid).1 (msgKey oid) = none) := by
  constructor
  · intro hnone
    constructor
    · unfold handleChunk
      rw [hnone]
    · unfold handleChunkedComplete
      rw [hnone]
  · intro cm hsome
    unfold handleChunkedComplete
    rw [hsome]
    exact alGet_alRemove_self sessions (msgKey oid)

/-- Witness for C10: a chunk for unknown id "z" is ignored on `sess1`, and a
complete for the active id "k" deletes the session even though parsing
fails (`parse` always fails here). -/
theorem claim10_witness :
    (alGet sess1 (msgKey (some "z")) = none ∧
      handleChunk sess1 (some "z") (some (0, ['b'])) = sess1) ∧
    alGet (handleChunkedComplete (fun _ => (none : Option Nat)) sess1 (some "k")).1
      (msgKey (some "k")) = none :=
  ⟨⟨by decide,
    ((claim10_reassembler (fun _ => (none : Option Nat)) sess1 (some "z")
      (some (0, ['b']))).1 (by decide)).1⟩,
   (claim10_reassembler (fun _ => (none : Option Nat)) sess1 (some "k")
     (some (0, ['b']))).2 { chunks := [['a']], received := 1, total := 1 } (by decide)⟩

end Relay
